import Mathlib

/-
Shallow embedding of the BusTub buffer-pool core:
  src/buffer/lru_replacer.cpp
  src/buffer/clock_replacer.cpp
  src/buffer/buffer_pool_manager_instance.cpp
Pure-state translation: every C++ member function becomes a Lean function
from the component state to (result, new state); calls to the disk peer
(WritePage / ReadPage / DeallocatePage) are recorded in an event trace and
mirrored in a disk model `disk : PageId → Nat` (one abstract word of
content per page stands in for the PAGE_SIZE byte buffer).
-/

namespace BusTub

abbrev FrameId := Nat

abbrev PageId := Int

def INVALID_PAGE_ID : PageId := -1

/-- One frame's Page object: metadata plus (abstracted) data buffer.
`data = 0` models a zeroed buffer (`ResetMemory`). -/
structure Page where
  page_id : PageId := INVALID_PAGE_ID
  pin_count : Int := 0
  is_dirty : Bool := false
  data : Nat := 0
deriving DecidableEq, Inhabited

/-- Pointwise update of a boolean map (models `unordered_map<frame_id_t, bool>`
where erasing a key and storing `false` are observationally the same). -/
def setMap (m : FrameId → Bool) (k : FrameId) (v : Bool) : FrameId → Bool :=
  fun x => if x = k then v else m x

/-- State of `LRUReplacer` (src/buffer/lru_replacer.cpp): the queue `que`
(front = least recently unpinned), the tracked-map `que_page`, and the
write-only map `pined_page`. -/
structure LRUReplacer where
  cap : Nat
  que : List FrameId := []
  que_page : FrameId → Bool := fun _ => false
  pined_page : FrameId → Bool := fun _ => false

/-- `LRUReplacer::LRUReplacer(num_pages)`. -/
def emptyLRU (num_pages : Nat) : LRUReplacer := { cap := num_pages }

/-- `LRUReplacer::Victim`: if the queue is empty return false; else pop the
front frame and erase its `que_page` entry. -/
def LRUReplacer.Victim (r : LRUReplacer) : Option FrameId × LRUReplacer :=
  match r.que with
  | [] => (none, r)
  | f :: rest => (some f, { r with que := rest, que_page := setMap r.que_page f false })

/-- `LRUReplacer::Pin`: linear scan; if the frame is in the queue, erase it,
set `pined_page[f] = true` and erase `que_page[f]`; otherwise do nothing. -/
def LRUReplacer.Pin (r : LRUReplacer) (f : FrameId) : LRUReplacer :=
  if f ∈ r.que then
    { r with que := r.que.erase f,
             pined_page := setMap r.pined_page f true,
             que_page := setMap r.que_page f false }
  else r

/-- `LRUReplacer::Unpin`: erase `pined_page[f]`; if `que_page[f]` is false
(default-constructed when absent), set it true and push the frame at the
back of the queue. -/
def LRUReplacer.Unpin (r : LRUReplacer) (f : FrameId) : LRUReplacer :=
  let r1 : LRUReplacer := { r with pined_page := setMap r.pined_page f false }
  if r1.que_page f = false then
    { r1 with que_page := setMap r1.que_page f true, que := r1.que ++ [f] }
  else r1

/-- `LRUReplacer::Size`: the queue length. -/
def LRUReplacer.Size (r : LRUReplacer) : Nat := r.que.length

/-- State of `ClockReplacer` (src/buffer/clock_replacer.cpp); the source
holds the same members as `LRUReplacer`. -/
structure ClockReplacer where
  cap : Nat
  que : List FrameId := []
  que_page : FrameId → Bool := fun _ => false
  pined_page : FrameId → Bool := fun _ => false

/-- `ClockReplacer::ClockReplacer(num_pages)`. -/
def emptyClock (num_pages : Nat) : ClockReplacer := { cap := num_pages }

/-- `ClockReplacer::Victim`. -/
def ClockReplacer.Victim (r : ClockReplacer) : Option FrameId × ClockReplacer :=
  match r.que with
  | [] => (none, r)
  | f :: rest => (some f, { r with que := rest, que_page := setMap r.que_page f false })

/-- `ClockReplacer::Pin`. -/
def ClockReplacer.Pin (r : ClockReplacer) (f : FrameId) : ClockReplacer :=
  if f ∈ r.que then
    { r with que := r.que.erase f,
             pined_page := setMap r.pined_page f true,
             que_page := setMap r.que_page f false }
  else r

/-- `ClockReplacer::Unpin`. -/
def ClockReplacer.Unpin (r : ClockReplacer) (f : FrameId) : ClockReplacer :=
  let r1 : ClockReplacer := { r with pined_page := setMap r.pined_page f false }
  if r1.que_page f = false then
    { r1 with que_page := setMap r1.que_page f true, que := r1.que ++ [f] }
  else r1

/-- `ClockReplacer::Size`. -/
def ClockReplacer.Size (r : ClockReplacer) : Nat := r.que.length

/-- Calls made to the `DiskManager` peer, recorded in order. -/
inductive DiskOp where
  | write (pid : PageId) (data : Nat)
  | read (pid : PageId)
  | dealloc (pid : PageId)
deriving DecidableEq

/-- Update the disk model at one page id (`DiskManager::WritePage`). -/
def diskWrite (dsk : PageId → Nat) (pid : PageId) (v : Nat) : PageId → Nat :=
  fun x => if x = pid then v else dsk x

/-- Erase one key of the page table (`page_table_.erase`). -/
def tableErase (m : PageId → Option FrameId) (k : PageId) : PageId → Option FrameId :=
  fun x => if x = k then none else m x

/-- Insert/overwrite one key of the page table (`page_table_[k] = v`). -/
def tableInsert (m : PageId → Option FrameId) (k : PageId) (v : FrameId) :
    PageId → Option FrameId :=
  fun x => if x = k then some v else m x

/-- State of one `BufferPoolManagerInstance`, together with the disk model. -/
structure BPM where
  pool_size : Nat
  num_instances : Nat
  instance_index : Nat
  next_page_id : Nat
  pages : List Page
  page_table : PageId → Option FrameId
  free_list : List FrameId
  replacer : LRUReplacer
  disk : PageId → Nat

/-- The constructor `BufferPoolManagerInstance(pool_size, num_instances,
instance_index, ...)`: all Page metadata `{INVALID, 0, false}`, the free
list `[0 .. pool_size)` in order, `next_page_id = instance_index`, an
empty LRU replacer; disk initially all zeros. -/
def initBPM (pool_size num_instances instance_index : Nat) : BPM :=
  { pool_size := pool_size
    num_instances := num_instances
    instance_index := instance_index
    next_page_id := instance_index
    pages := List.replicate pool_size {}
    page_table := fun _ => none
    free_list := List.range pool_size
    replacer := emptyLRU pool_size
    disk := fun _ => 0 }

/-- Result of an operation: return value, post state, disk-peer calls. -/
structure OpResult (α : Type) where
  res : α
  st : BPM
  trace : List DiskOp

/-- `BufferPoolManagerInstance::FlushPgImp`: reject `INVALID` and
non-resident ids; otherwise `WritePage(frame.page_id, frame.data)` and
clear the dirty bit. -/
def BPM.FlushPgImp (s : BPM) (page_id : PageId) : OpResult Bool :=
  if page_id = INVALID_PAGE_ID then ⟨false, s, []⟩
  else
    match s.page_table page_id with
    | none => ⟨false, s, []⟩
    | some frame_id =>
      let p := s.pages.getD frame_id default
      ⟨true,
       { s with pages := s.pages.set frame_id { p with is_dirty := false },
                disk := diskWrite s.disk p.page_id p.data },
       [DiskOp.write p.page_id p.data]⟩

/-- Tail of `NewPgImp` shared by the free-list and victim branches:
`ResetMemory`, erase the old page-table entry, `AllocatePage`
(`pid = next_page_id; next_page_id += num_instances`), install the new
metadata and mapping, `replacer_->Pin(frame_id)`. -/
def finishNew (s : BPM) (frame_id : FrameId) (p : Page) (tr : List DiskOp) :
    OpResult (PageId × Option FrameId) :=
  let p1 : Page := { p with data := 0 }
  let s1 : BPM := { s with page_table := tableErase s.page_table p1.page_id }
  let pid : PageId := Int.ofNat s1.next_page_id
  let s2 : BPM := { s1 with next_page_id := s1.next_page_id + s1.num_instances }
  let p2 : Page := { p1 with page_id := pid, is_dirty := false, pin_count := p1.pin_count + 1 }
  ⟨(pid, some frame_id),
   { s2 with pages := s2.pages.set frame_id p2,
             page_table := tableInsert s2.page_table pid frame_id,
             replacer := s2.replacer.Pin frame_id },
   tr⟩

/-- `BufferPoolManagerInstance::NewPgImp`: the result value is the pair
(out-parameter `page_id`, returned frame or null). -/
def BPM.NewPgImp (s : BPM) : OpResult (PageId × Option FrameId) :=
  if s.replacer.Size = 0 ∧ s.free_list = [] then
    ⟨(INVALID_PAGE_ID, none), s, []⟩
  else
    match s.free_list with
    | frame_id :: rest =>
      let s1 : BPM := { s with free_list := rest }
      finishNew s1 frame_id (s1.pages.getD frame_id default) []
    | [] =>
      match s.replacer.Victim with
      | (none, _) => ⟨(INVALID_PAGE_ID, none), s, []⟩
      | (some frame_id, r1) =>
        let s1 : BPM := { s with replacer := r1 }
        let p := s1.pages.getD frame_id default
        if p.is_dirty then
          let s2 : BPM := { s1 with disk := diskWrite s1.disk p.page_id p.data }
          finishNew { s2 with pages := s2.pages.set frame_id { p with is_dirty := false, pin_count := 0 } }
            frame_id { p with is_dirty := false, pin_count := 0 }
            [DiskOp.write p.page_id p.data]
        else
          finishNew { s1 with pages := s1.pages.set frame_id { p with pin_count := 0 } }
            frame_id { p with pin_count := 0 } []

/-- Tail of `FetchPgImp` shared by the free-list and victim branches:
erase the old mapping, install the new one, pin, and `ReadPage` into the
frame buffer. -/
def finishFetch (s : BPM) (page_id : PageId) (frame_id : FrameId) (p : Page)
    (tr : List DiskOp) : OpResult (Option FrameId) :=
  let s1 : BPM := { s with page_table := tableErase s.page_table p.page_id }
  let p1 : Page := { p with page_id := page_id, pin_count := p.pin_count + 1,
                            is_dirty := false, data := s1.disk page_id }
  ⟨some frame_id,
   { s1 with pages := s1.pages.set frame_id p1,
             page_table := tableInsert s1.page_table page_id frame_id,
             replacer := s1.replacer.Pin frame_id },
   tr ++ [DiskOp.read page_id]⟩

/-- `BufferPoolManagerInstance::FetchPgImp`. -/
def BPM.FetchPgImp (s : BPM) (page_id : PageId) : OpResult (Option FrameId) :=
  if page_id = INVALID_PAGE_ID then ⟨none, s, []⟩
  else
    match s.page_table page_id with
    | some frame_id =>
      let p := s.pages.getD frame_id default
      ⟨some frame_id,
       { s with pages := s.pages.set frame_id { p with pin_count := p.pin_count + 1 },
                replacer := s.replacer.Pin frame_id },
       []⟩
    | none =>
      if s.replacer.Size = 0 ∧ s.free_list = [] then ⟨none, s, []⟩
      else
        match s.free_list with
        | frame_id :: rest =>
          let s1 : BPM := { s with free_list := rest }
          finishFetch s1 page_id frame_id (s1.pages.getD frame_id default) []
        | [] =>
          match s.replacer.Victim with
          | (none, _) => ⟨none, s, []⟩
          | (some frame_id, r1) =>
            let s1 : BPM := { s with replacer := r1 }
            let p := s1.pages.getD frame_id default
            if p.is_dirty then
              let s2 : BPM := { s1 with disk := diskWrite s1.disk p.page_id p.data }
              finishFetch { s2 with pages := s2.pages.set frame_id { p with is_dirty := false, pin_count := 0, data := 0 } }
                page_id frame_id { p with is_dirty := false, pin_count := 0, data := 0 }
                [DiskOp.write p.page_id p.data]
            else
              finishFetch { s1 with pages := s1.pages.set frame_id { p with pin_count := 0, data := 0 } }
                page_id frame_id { p with pin_count := 0, data := 0 } []

/-- `BufferPoolManagerInstance::UnpinPgImp`: on a resident page the frame's
dirty bit is assigned `is_dirty` (plain assignment, before the pin-count
check); a zero pin count then reports `false`; otherwise the pin count is
decremented and, on reaching zero, the frame is handed to the replacer. -/
def BPM.UnpinPgImp (s : BPM) (page_id : PageId) (is_dirty : Bool) : Bool × BPM :=
  match s.page_table page_id with
  | none => (false, s)
  | some frame_id =>
    let p0 := s.pages.getD frame_id default
    let p1 : Page := { p0 with is_dirty := is_dirty }
    let s1 : BPM := { s with pages := s.pages.set frame_id p1 }
    if p1.pin_count ≤ 0 then (false, s1)
    else
      let p2 : Page := { p1 with pin_count := p1.pin_count - 1 }
      let s2 : BPM := { s1 with pages := s1.pages.set frame_id p2 }
      if p2.pin_count ≤ 0 then
        (true, { s2 with replacer := s2.replacer.Unpin frame_id })
      else (true, s2)

/-- `BufferPoolManagerInstance::DeletePgImp`: absent id is success; a
pinned page refuses; otherwise `DeallocatePage`, drop the mapping, reset
the frame to `{INVALID, 0, false}` with a zeroed buffer and push the frame
at the back of the free list. -/
def BPM.DeletePgImp (s : BPM) (page_id : PageId) : OpResult Bool :=
  match s.page_table page_id with
  | none => ⟨true, s, []⟩
  | some frame_id =>
    let p := s.pages.getD frame_id default
    if p.pin_count ≠ 0 then ⟨false, s, []⟩
    else
      ⟨true,
       { s with page_table := tableErase s.page_table page_id,
                pages := s.pages.set frame_id
                  { page_id := INVALID_PAGE_ID, pin_count := 0, is_dirty := false, data := 0 },
                free_list := s.free_list ++ [frame_id] },
       [DiskOp.dealloc page_id]⟩

/-- One public call to the pool instance. -/
inductive Op where
  | newPage : Op
  | fetchPage : PageId → Op
  | unpinPage : PageId → Bool → Op
  | flushPage : PageId → Op
  | deletePage : PageId → Op

/-- The state transition of one call (return values dropped). -/
def BPM.applyOp (s : BPM) : Op → BPM
  | .newPage => s.NewPgImp.st
  | .fetchPage pid => (s.FetchPgImp pid).st
  | .unpinPage pid d => (s.UnpinPgImp pid d).2
  | .flushPage pid => (s.FlushPgImp pid).st
  | .deletePage pid => (s.DeletePgImp pid).st

/-- Run a call sequence from a state. -/
def runOps (s : BPM) (ops : List Op) : BPM := ops.foldl BPM.applyOp s

/-- States reachable from a freshly constructed instance by any sequence of
public calls. -/
inductive Reachable (ps ni ii : Nat) : BPM → Prop where
  | init : Reachable ps ni ii (initBPM ps ni ii)
  | step : ∀ s op, Reachable ps ni ii s → Reachable ps ni ii (s.applyOp op)

/-- One call to a replacer. -/
inductive RepOp where
  | victim : RepOp
  | pin : FrameId → RepOp
  | unpin : FrameId → RepOp
  | size : RepOp

/-- Observable result of one replacer call. -/
inductive RepOut where
  | victimOut : Option FrameId → RepOut
  | sizeOut : Nat → RepOut
  | unitOut : RepOut
deriving DecidableEq

/-- One step of `LRUReplacer` under a call. -/
def lruStep (r : LRUReplacer) : RepOp → RepOut × LRUReplacer
  | .victim => (RepOut.victimOut r.Victim.1, r.Victim.2)
  | .pin f => (RepOut.unitOut, r.Pin f)
  | .unpin f => (RepOut.unitOut, r.Unpin f)
  | .size => (RepOut.sizeOut r.Size, r)

/-- Run a call sequence on `LRUReplacer`, collecting the outputs. -/
def lruRun (r : LRUReplacer) : List RepOp → List RepOut × LRUReplacer
  | [] => ([], r)
  | op :: ops =>
    ((lruStep r op).1 :: (lruRun (lruStep r op).2 ops).1, (lruRun (lruStep r op).2 ops).2)

/-- One step of `ClockReplacer` under a call. -/
def clockStep (r : ClockReplacer) : RepOp → RepOut × ClockReplacer
  | .victim => (RepOut.victimOut r.Victim.1, r.Victim.2)
  | .pin f => (RepOut.unitOut, r.Pin f)
  | .unpin f => (RepOut.unitOut, r.Unpin f)
  | .size => (RepOut.sizeOut r.Size, r)

/-- Run a call sequence on `ClockReplacer`, collecting the outputs. -/
def clockRun (r : ClockReplacer) : List RepOp → List RepOut × ClockReplacer
  | [] => ([], r)
  | op :: ops =>
    ((clockStep r op).1 :: (clockRun (clockStep r op).2 ops).1,
     (clockRun (clockStep r op).2 ops).2)

/-- Field-for-field view of a `ClockReplacer` state as an `LRUReplacer`
state (the two sources declare the same members). -/
def clockToLRU (c : ClockReplacer) : LRUReplacer :=
  { cap := c.cap, que := c.que, que_page := c.que_page, pined_page := c.pined_page }

/-- Reading a just-set index of a list. -/
theorem getD_set_self {α : Type} [Inhabited α] (l : List α) (n : Nat) (a : α)
    (h : n < l.length) : (l.set n a).getD n default = a := by
  simp [List.getD, List.getElem?_set_self, h]

/-- A single clock step matches the corresponding LRU step. -/
theorem clockStep_sim (c : ClockReplacer) (op : RepOp) :
    (clockStep c op).1 = (lruStep (clockToLRU c) op).1
    ∧ clockToLRU (clockStep c op).2 = (lruStep (clockToLRU c) op).2 := by
  cases op with
  | victim =>
    cases h : c.que with
    | nil =>
      simp [clockStep, lruStep, ClockReplacer.Victim, LRUReplacer.Victim, clockToLRU, h]
    | cons f rest =>
      simp [clockStep, lruStep, ClockReplacer.Victim, LRUReplacer.Victim, clockToLRU, h]
  | pin f =>
    by_cases h : f ∈ c.que <;>
      simp [clockStep, lruStep, ClockReplacer.Pin, LRUReplacer.Pin, clockToLRU, h]
  | unpin f =>
    by_cases h : c.que_page f = false <;>
      simp [clockStep, lruStep, ClockReplacer.Unpin, LRUReplacer.Unpin, clockToLRU, h]
  | size => exact ⟨rfl, rfl⟩

/-- Running any call sequence preserves the clock/LRU correspondence. -/
theorem clockRun_sim (ops : List RepOp) : ∀ c : ClockReplacer,
    (clockRun c ops).1 = (lruRun (clockToLRU c) ops).1
    ∧ clockToLRU (clockRun c ops).2 = (lruRun (clockToLRU c) ops).2 := by
  induction ops with
  | nil => intro c; exact ⟨rfl, rfl⟩
  | cons op ops ih =>
    intro c
    have h := clockStep_sim c op
    have ht := ih (clockStep c op).2
    constructor
    · show (clockStep c op).1 :: (clockRun (clockStep c op).2 ops).1
        = (lruStep (clockToLRU c) op).1 :: (lruRun (lruStep (clockToLRU c) op).2 ops).1
      rw [h.1, ht.1, h.2]
    · show clockToLRU (clockRun (clockStep c op).2 ops).2
        = (lruRun (lruStep (clockToLRU c) op).2 ops).2
      rw [ht.2, h.2]

/-- C10: ClockReplacer and LRUReplacer are observationally equivalent:
from empty states with the same capacity, every sequence of Victim, Pin,
Unpin, Size calls yields identical outputs and field-for-field equal
internal states (the Clock variant has no reference bits or clock hand;
both evict in first-unpinned-first-out order). -/
theorem C10_clock_lru_equiv (num_pages : Nat) (ops : List RepOp) :
    (clockRun (emptyClock num_pages) ops).1 = (lruRun (emptyLRU num_pages) ops).1
    ∧ clockToLRU (clockRun (emptyClock num_pages) ops).2
        = (lruRun (emptyLRU num_pages) ops).2 :=
  clockRun_sim ops (emptyClock num_pages)

/-- A well-formed replacer state: the tracked-map agrees with the queue.
This holds for every state produced from `emptyLRU` by the three mutators. -/
def LRUReplacer.WF (r : LRUReplacer) : Prop :=
  ∀ x, r.que_page x = true ↔ x ∈ r.que

/-- C7: the LRU replacer keeps tracked frames in unpin order: Victim on a
non-empty replacer removes and returns the front (least-recently-unpinned)
frame and returns none when empty; Unpin on an untracked frame appends it
at the back (most-recently-used); Unpin on a tracked frame leaves the
queue unchanged (no reordering); Pin on a tracked frame removes it and on
an untracked frame is a no-op; Size is the number of tracked frames. -/
theorem C7_lru_contract (r : LRUReplacer) (f : FrameId) (hwf : r.WF) :
    (r.que = [] → r.Victim = (none, r))
    ∧ (∀ g rest, r.que = g :: rest → r.Victim.1 = some g ∧ r.Victim.2.que = rest)
    ∧ (f ∉ r.que → (r.Unpin f).que = r.que ++ [f])
    ∧ (f ∈ r.que → (r.Unpin f).que = r.que)
    ∧ (f ∈ r.que → (r.Pin f).que = r.que.erase f)
    ∧ (f ∉ r.que → r.Pin f = r)
    ∧ r.Size = r.que.length := by
  refine ⟨?_, ?_, ?_, ?_, ?_, ?_, rfl⟩
  · intro h; simp [LRUReplacer.Victim, h]
  · intro g rest h; simp [LRUReplacer.Victim, h]
  · intro hf
    have hq : r.que_page f = false := by
      cases hqp : r.que_page f with
      | false => rfl
      | true => exact absurd ((hwf f).1 hqp) hf
    simp [LRUReplacer.Unpin, hq]
  · intro hf
    have hq : r.que_page f = true := (hwf f).2 hf
    simp [LRUReplacer.Unpin, hq]
  · intro hf; simp [LRUReplacer.Pin, hf]
  · intro hf; simp [LRUReplacer.Pin, hf]

/-- A concrete well-formed replacer state used to instantiate `C7_lru_contract`. -/
def w7 : LRUReplacer :=
  { cap := 3, que := [1, 2], que_page := fun x => x == 1 || x == 2,
    pined_page := fun _ => false }

theorem w7_wf : w7.WF := by
  intro x
  simp [w7, LRUReplacer.WF]

theorem C7_lru_contract_witness :
    (3 ∉ w7.que ∧ (w7.Unpin 3).que = w7.que ++ [3])
    ∧ (1 ∈ w7.que ∧ (w7.Pin 1).que = w7.que.erase 1)
    ∧ (w7.que = 1 :: [2] ∧ w7.Victim.1 = some 1 ∧ w7.Victim.2.que = [2]) :=
  ⟨⟨by decide, (C7_lru_contract w7 3 w7_wf).2.2.1 (by decide)⟩,
   ⟨by decide, (C7_lru_contract w7 1 w7_wf).2.2.2.2.1 (by decide)⟩,
   ⟨by decide, (C7_lru_contract w7 3 w7_wf).2.1 1 [2] (by decide)⟩⟩

/-- A pool-size-1 instance after NewPage and a second Fetch of the same
page: page 0 resident in frame 0 with pin count 2. -/
def c1Base : BPM := runOps (initBPM 1 1 0) [Op.newPage, Op.fetchPage 0]

/-- C1 as stated is false: on `c1Base` (page 0 pinned twice) both
`UnpinPage(0, true)` and then `UnpinPage(0, false)` succeed, yet the dirty
flag ends up false — the second unpin cleared it. -/
theorem C1_counterexample :
    (c1Base.UnpinPgImp 0 true).1 = true
    ∧ ((c1Base.UnpinPgImp 0 true).2.UnpinPgImp 0 false).1 = true
    ∧ (((c1Base.UnpinPgImp 0 true).2.UnpinPgImp 0 false).2.pages.getD 0
        default).is_dirty = false := by
  decide

/-- C1 (amended): for every resident page, `UnpinPage(p, is_dirty)` plainly
assigns the frame's dirty flag to `is_dirty` (it does not OR it with the
old value); in particular an unpin with `is_dirty = false` clears an
already-set dirty flag, and `Unpin(p, true)` followed by
`Unpin(p, false)` leaves `dirty == false`. -/
theorem C1_unpin_assigns_dirty (s : BPM) (pid : PageId) (d : Bool) (f : FrameId)
    (hres : s.page_table pid = some f) (hf : f < s.pages.length) :
    ((s.UnpinPgImp pid d).2.pages.getD f default).is_dirty = d := by
  simp only [BPM.UnpinPgImp, hres]
  split
  · rw [getD_set_self _ _ _ hf]
  · split
    · rw [List.set_set, getD_set_self _ _ _ hf]
    · rw [List.set_set, getD_set_self _ _ _ hf]

/-- The state `c1Base` after a successful `UnpinPage(0, true)`: page 0 is
resident, still pinned once, and dirty. -/
def c1Dirty : BPM := (c1Base.UnpinPgImp 0 true).2

theorem C1_unpin_assigns_dirty_witness :
    c1Dirty.page_table 0 = some 0 ∧ 0 < c1Dirty.pages.length
    ∧ (c1Dirty.pages.getD 0 default).is_dirty = true
    ∧ ((c1Dirty.UnpinPgImp 0 false).2.pages.getD 0 default).is_dirty = false :=
  ⟨by decide, by decide, by decide,
   C1_unpin_assigns_dirty c1Dirty 0 false 0 (by decide) (by decide)⟩

/-- A pool-size-1 instance after NewPage and UnpinPage(0, true): page 0
resident in frame 0 with pin count 0 and the dirty flag set. -/
def c2Base : BPM := runOps (initBPM 1 1 0) [Op.newPage, Op.unpinPage 0 true]

/-- C2 as stated is false: on `c2Base` (pin count 0, dirty set),
`UnpinPage(0, false)` returns false as claimed but does NOT leave the
frame unchanged — it clears the dirty flag. -/
theorem C2_counterexample :
    (c2Base.pages.getD 0 default).pin_count = 0
    ∧ (c2Base.pages.getD 0 default).is_dirty = true
    ∧ (c2Base.UnpinPgImp 0 false).1 = false
    ∧ ((c2Base.UnpinPgImp 0 false).2.pages.getD 0 default).is_dirty = false := by
  decide

/-- C2 (amended): for every resident page whose frame has pin count 0,
`UnpinPage(p, is_dirty)` returns false and leaves the pin count, page id,
page table, free list and replacer exactly as before, but the frame's
dirty flag is assigned `is_dirty` (the assignment happens before the
pin-count check). -/
theorem C2_unpin_zero_pin (s : BPM) (pid : PageId) (d : Bool) (f : FrameId)
    (hres : s.page_table pid = some f) (hpin : (s.pages.getD f default).pin_count = 0) :
    (s.UnpinPgImp pid d).1 = false
    ∧ (s.UnpinPgImp pid d).2.page_table = s.page_table
    ∧ (s.UnpinPgImp pid d).2.free_list = s.free_list
    ∧ (s.UnpinPgImp pid d).2.replacer = s.replacer
    ∧ (s.UnpinPgImp pid d).2.next_page_id = s.next_page_id
    ∧ (s.UnpinPgImp pid d).2.pages
        = s.pages.set f { s.pages.getD f default with is_dirty := d } := by
  have heq : s.UnpinPgImp pid d
      = (false, { s with pages := s.pages.set f ({ s.pages.getD f default with is_dirty := d }) }) := by
    simp only [BPM.UnpinPgImp, hres]
    rw [if_pos]
    show (s.pages.getD f default).pin_count ≤ 0
    omega
  rw [heq]
  exact ⟨rfl, rfl, rfl, rfl, rfl, rfl⟩

theorem C2_unpin_zero_pin_witness :
    c2Base.page_table 0 = some 0 ∧ (c2Base.pages.getD 0 default).pin_count = 0
    ∧ ((c2Base.UnpinPgImp 0 false).1 = false
       ∧ (c2Base.UnpinPgImp 0 false).2.page_table = c2Base.page_table
       ∧ (c2Base.UnpinPgImp 0 false).2.free_list = c2Base.free_list
       ∧ (c2Base.UnpinPgImp 0 false).2.replacer = c2Base.replacer
       ∧ (c2Base.UnpinPgImp 0 false).2.next_page_id = c2Base.next_page_id
       ∧ (c2Base.UnpinPgImp 0 false).2.pages
           = c2Base.pages.set 0 { c2Base.pages.getD 0 default with is_dirty := false }) :=
  ⟨by decide, by decide, C2_unpin_zero_pin c2Base 0 false 0 (by decide) (by decide)⟩

/-- The pool-size-1 trace NewPage; UnpinPage(0, false); DeletePage(0). -/
def c3Trace : List Op := [Op.newPage, Op.unpinPage 0 false, Op.deletePage 0]

/-- C3 fails on the code: after the successful DeletePage(0) of the trace
`c3Trace`, frame 0 sits in the free list AND is still tracked by the
replacer (DeletePgImp never calls `replacer_->Pin`), so the freed frame is
in two of the three classes at once. -/
theorem C3_delete_leaves_frame_tracked :
    ((runOps (initBPM 1 1 0) [Op.newPage, Op.unpinPage 0 false]).DeletePgImp 0).res = true
    ∧ 0 ∈ (runOps (initBPM 1 1 0) c3Trace).free_list
    ∧ 0 ∈ (runOps (initBPM 1 1 0) c3Trace).replacer.que := by
  decide

/-- C8: FlushPage returns false exactly on INVALID or non-resident ids and
then changes nothing; on a resident id it writes the frame's contents to
disk, clears the dirty flag, returns true, and changes nothing else (page
table, free list, replacer, cursor, and the frame's pin count and page id
are untouched; the frame is not unpinned or evicted). -/
theorem C8_flush_contract (s : BPM) (pid : PageId) :
    (pid = INVALID_PAGE_ID → s.FlushPgImp pid = ⟨false, s, []⟩)
    ∧ (s.page_table pid = none → s.FlushPgImp pid = ⟨false, s, []⟩)
    ∧ (∀ f, pid ≠ INVALID_PAGE_ID → s.page_table pid = some f →
        (s.FlushPgImp pid).res = true
        ∧ (s.FlushPgImp pid).trace
            = [DiskOp.write (s.pages.getD f default).page_id (s.pages.getD f default).data]
        ∧ (s.FlushPgImp pid).st.pages
            = s.pages.set f ({ s.pages.getD f default with is_dirty := false })
        ∧ (s.FlushPgImp pid).st.page_table = s.page_table
        ∧ (s.FlushPgImp pid).st.free_list = s.free_list
        ∧ (s.FlushPgImp pid).st.replacer = s.replacer
        ∧ (s.FlushPgImp pid).st.next_page_id = s.next_page_id) := by
  refine ⟨?_, ?_, ?_⟩
  · intro h; simp [BPM.FlushPgImp, h]
  · intro h
    by_cases hinv : pid = INVALID_PAGE_ID
    · simp [BPM.FlushPgImp, hinv]
    · simp [BPM.FlushPgImp, hinv, h]
  · intro f hinv hres
    simp only [BPM.FlushPgImp, if_neg hinv, hres]
    exact ⟨trivial, trivial, trivial, trivial, trivial, trivial, trivial⟩

/-- A pool-size-1 instance with page 0 resident in frame 0 and dirty. -/
def c8Base : BPM := runOps (initBPM 1 1 0) [Op.newPage, Op.unpinPage 0 true]

theorem C8_flush_contract_witness :
    ((0 : PageId) ≠ INVALID_PAGE_ID ∧ c8Base.page_table 0 = some 0)
    ∧ ((c8Base.FlushPgImp 0).res = true
       ∧ (c8Base.FlushPgImp 0).trace
           = [DiskOp.write (c8Base.pages.getD 0 default).page_id (c8Base.pages.getD 0 default).data]
       ∧ (c8Base.FlushPgImp 0).st.pages
           = c8Base.pages.set 0 ({ c8Base.pages.getD 0 default with is_dirty := false })
       ∧ (c8Base.FlushPgImp 0).st.page_table = c8Base.page_table
       ∧ (c8Base.FlushPgImp 0).st.free_list = c8Base.free_list
       ∧ (c8Base.FlushPgImp 0).st.replacer = c8Base.replacer
       ∧ (c8Base.FlushPgImp 0).st.next_page_id = c8Base.next_page_id) :=
  ⟨⟨by decide, by decide⟩, (C8_flush_contract c8Base 0).2.2 0 (by decide) (by decide)⟩

/-- C9: DeletePage on an absent id is a stateless success; on a pinned
resident page it is a stateless refusal (no DeallocatePage call, the page
stays resident); on an unpinned resident page it calls DeallocatePage
(only then, i.e. after the pin check), removes the mapping, resets the
frame to {INVALID, 0, false} with a zeroed buffer, pushes the frame to
the back of the free list, and returns true. -/
theorem C9_delete_contract (s : BPM) (pid : PageId) :
    (s.page_table pid = none → s.DeletePgImp pid = ⟨true, s, []⟩)
    ∧ (∀ f, s.page_table pid = some f → (s.pages.getD f default).pin_count > 0 →
        s.DeletePgImp pid = ⟨false, s, []⟩)
    ∧ (∀ f, s.page_table pid = some f → (s.pages.getD f default).pin_count = 0 →
        (s.DeletePgImp pid).res = true
        ∧ (s.DeletePgImp pid).trace = [DiskOp.dealloc pid]
        ∧ (s.DeletePgImp pid).st.page_table = tableErase s.page_table pid
        ∧ (s.DeletePgImp pid).st.pages = s.pages.set f
            ({ page_id := INVALID_PAGE_ID, pin_count := 0, is_dirty := false, data := 0 })
        ∧ (s.DeletePgImp pid).st.free_list = s.free_list ++ [f]
        ∧ (s.DeletePgImp pid).st.replacer = s.replacer
        ∧ (s.DeletePgImp pid).st.next_page_id = s.next_page_id) := by
  refine ⟨?_, ?_, ?_⟩
  · intro h; simp [BPM.DeletePgImp, h]
  · intro f hres hpin
    have hne : (s.pages.getD f default).pin_count ≠ 0 := by omega
    simp only [BPM.DeletePgImp, hres, if_pos hne]
  · intro f hres hpin
    have hne : ¬(s.pages.getD f default).pin_count ≠ 0 := by omega
    simp only [BPM.DeletePgImp, hres, if_neg hne]
    exact ⟨trivial, trivial, trivial, trivial, trivial, trivial, trivial⟩

/-- A pool-size-1 instance with page 0 resident in frame 0, unpinned. -/
def c9Base : BPM := runOps (initBPM 1 1 0) [Op.newPage, Op.unpinPage 0 false]

theorem C9_delete_contract_witness :
    (c9Base.page_table 0 = some 0 ∧ (c9Base.pages.getD 0 default).pin_count = 0)
    ∧ ((c9Base.DeletePgImp 0).res = true
       ∧ (c9Base.DeletePgImp 0).trace = [DiskOp.dealloc 0]
       ∧ (c9Base.DeletePgImp 0).st.page_table = tableErase c9Base.page_table 0
       ∧ (c9Base.DeletePgImp 0).st.pages = c9Base.pages.set 0
           ({ page_id := INVALID_PAGE_ID, pin_count := 0, is_dirty := false, data := 0 })
       ∧ (c9Base.DeletePgImp 0).st.free_list = c9Base.free_list ++ [0]
       ∧ (c9Base.DeletePgImp 0).st.replacer = c9Base.replacer
       ∧ (c9Base.DeletePgImp 0).st.next_page_id = c9Base.next_page_id) :=
  ⟨⟨by decide, by decide⟩, (C9_delete_contract c9Base 0).2.2 0 (by decide) (by decide)⟩

/-- Components of `finishNew` read off directly. -/
theorem finishNew_spec (s : BPM) (f : FrameId) (p : Page) (tr : List DiskOp) :
    (finishNew s f p tr).res = (Int.ofNat s.next_page_id, some f)
    ∧ (finishNew s f p tr).trace = tr
    ∧ (finishNew s f p tr).st.free_list = s.free_list
    ∧ (finishNew s f p tr).st.next_page_id = s.next_page_id + s.num_instances
    ∧ (finishNew s f p tr).st.num_instances = s.num_instances
    ∧ (finishNew s f p tr).st.instance_index = s.instance_index
    ∧ (finishNew s f p tr).st.page_table
        = tableInsert (tableErase s.page_table p.page_id) (Int.ofNat s.next_page_id) f
    ∧ (finishNew s f p tr).st.pages = s.pages.set f
        ({ p with data := 0, page_id := Int.ofNat s.next_page_id, is_dirty := false,
                  pin_count := p.pin_count + 1 })
    ∧ (finishNew s f p tr).st.replacer = s.replacer.Pin f
    ∧ (finishNew s f p tr).st.disk = s.disk :=
  ⟨rfl, rfl, rfl, rfl, rfl, rfl, rfl, rfl, rfl, rfl⟩

theorem newPg_free (s : BPM) (f : FrameId) (rest : List FrameId)
    (hfl : s.free_list = f :: rest) :
    s.NewPgImp = finishNew { s with free_list := rest } f (s.pages.getD f default) [] := by
  unfold BPM.NewPgImp
  rw [hfl, if_neg (by simp)]

theorem newPg_victim_dirty (s : BPM) (f : FrameId) (q : List FrameId)
    (hfl : s.free_list = []) (hq : s.replacer.que = f :: q)
    (hd : (s.pages.getD f default).is_dirty = true) :
    s.NewPgImp = finishNew
      { s with replacer := { s.replacer with que := q, que_page := setMap s.replacer.que_page f false },
               disk := diskWrite s.disk (s.pages.getD f default).page_id (s.pages.getD f default).data,
               pages := s.pages.set f ({ s.pages.getD f default with is_dirty := false, pin_count := 0 }) }
      f ({ s.pages.getD f default with is_dirty := false, pin_count := 0 })
      [DiskOp.write (s.pages.getD f default).page_id (s.pages.getD f default).data] := by
  have hv : s.replacer.Victim
      = (some f, { s.replacer with que := q, que_page := setMap s.replacer.que_page f false }) := by
    unfold LRUReplacer.Victim
    rw [hq]
  unfold BPM.NewPgImp
  rw [hfl, if_neg (by simp [LRUReplacer.Size, hq]), hv]
  dsimp only
  rw [if_pos hd]

theorem newPg_victim_clean (s : BPM) (f : FrameId) (q : List FrameId)
    (hfl : s.free_list = []) (hq : s.replacer.que = f :: q)
    (hd : (s.pages.getD f default).is_dirty = false) :
    s.NewPgImp = finishNew
      { s with replacer := { s.replacer with que := q, que_page := setMap s.replacer.que_page f false },
               pages := s.pages.set f ({ s.pages.getD f default with pin_count := 0 }) }
      f ({ s.pages.getD f default with pin_count := 0 }) [] := by
  have hv : s.replacer.Victim
      = (some f, { s.replacer with que := q, que_page := setMap s.replacer.que_page f false }) := by
    unfold LRUReplacer.Victim
    rw [hq]
  unfold BPM.NewPgImp
  rw [hfl, if_neg (by simp [LRUReplacer.Size, hq]), hv]
  dsimp only
  rw [if_neg (by simpa using hd)]

theorem newPg_exhausted (s : BPM)
    (hfl : s.free_list = []) (hq : s.replacer.que = []) :
    s.NewPgImp = ⟨(INVALID_PAGE_ID, none), s, []⟩ := by
  unfold BPM.NewPgImp
  rw [hfl, if_pos (by simp [LRUReplacer.Size, hq])]



theorem finishFetch_spec (s : BPM) (pid : PageId) (f : FrameId) (p : Page) (tr : List DiskOp) :
    (finishFetch s pid f p tr).res = some f
    ∧ (finishFetch s pid f p tr).trace = tr ++ [DiskOp.read pid]
    ∧ (finishFetch s pid f p tr).st.free_list = s.free_list
    ∧ (finishFetch s pid f p tr).st.next_page_id = s.next_page_id
    ∧ (finishFetch s pid f p tr).st.num_instances = s.num_instances
    ∧ (finishFetch s pid f p tr).st.instance_index = s.instance_index
    ∧ (finishFetch s pid f p tr).st.page_table
        = tableInsert (tableErase s.page_table p.page_id) pid f
    ∧ (finishFetch s pid f p tr).st.pages = s.pages.set f
        ({ p with page_id := pid, pin_count := p.pin_count + 1, is_dirty := false,
                  data := s.disk pid })
    ∧ (finishFetch s pid f p tr).st.replacer = s.replacer.Pin f
    ∧ (finishFetch s pid f p tr).st.disk = s.disk :=
  ⟨rfl, rfl, rfl, rfl, rfl, rfl, rfl, rfl, rfl, rfl⟩

theorem fetch_hit (s : BPM) (pid : PageId) (f : FrameId)
    (hinv : pid ≠ INVALID_PAGE_ID) (hres : s.page_table pid = some f) :
    s.FetchPgImp pid = ⟨some f,
      { s with pages := s.pages.set f ({ s.pages.getD f default with
                  pin_count := (s.pages.getD f default).pin_count + 1 }),
               replacer := s.replacer.Pin f }, []⟩ := by
  unfold BPM.FetchPgImp
  rw [if_neg hinv, hres]

theorem fetch_miss_exhausted (s : BPM) (pid : PageId)
    (hres : s.page_table pid = none) (hfl : s.free_list = [])
    (hq : s.replacer.que = []) :
    s.FetchPgImp pid = ⟨none, s, []⟩ := by
  by_cases hinv : pid = INVALID_PAGE_ID
  · unfold BPM.FetchPgImp
    rw [if_pos hinv]
  · unfold BPM.FetchPgImp
    rw [if_neg hinv, hres, hfl, if_pos (by simp [LRUReplacer.Size, hq])]

theorem fetch_miss_free (s : BPM) (pid : PageId) (f : FrameId) (rest : List FrameId)
    (hinv : pid ≠ INVALID_PAGE_ID) (hres : s.page_table pid = none)
    (hfl : s.free_list = f :: rest) :
    s.FetchPgImp pid
      = finishFetch { s with free_list := rest } pid f (s.pages.getD f default) [] := by
  unfold BPM.FetchPgImp
  rw [if_neg hinv, hres, hfl, if_neg (by simp)]

theorem fetch_miss_victim_dirty (s : BPM) (pid : PageId) (f : FrameId) (q : List FrameId)
    (hinv : pid ≠ INVALID_PAGE_ID) (hres : s.page_table pid = none)
    (hfl : s.free_list = []) (hq : s.replacer.que = f :: q)
    (hd : (s.pages.getD f default).is_dirty = true) :
    s.FetchPgImp pid = finishFetch
      { s with replacer := { s.replacer with que := q, que_page := setMap s.replacer.que_page f false },
               disk := diskWrite s.disk (s.pages.getD f default).page_id (s.pages.getD f default).data,
               pages := s.pages.set f ({ s.pages.getD f default with is_dirty := false, pin_count := 0, data := 0 }) }
      pid f ({ s.pages.getD f default with is_dirty := false, pin_count := 0, data := 0 })
      [DiskOp.write (s.pages.getD f default).page_id (s.pages.getD f default).data] := by
  have hv : s.replacer.Victim
      = (some f, { s.replacer with que := q, que_page := setMap s.replacer.que_page f false }) := by
    unfold LRUReplacer.Victim
    rw [hq]
  unfold BPM.FetchPgImp
  rw [if_neg hinv, hres, hfl, if_neg (by simp [LRUReplacer.Size, hq]), hv]
  dsimp only
  rw [if_pos hd]

theorem fetch_miss_victim_clean (s : BPM) (pid : PageId) (f : FrameId) (q : List FrameId)
    (hinv : pid ≠ INVALID_PAGE_ID) (hres : s.page_table pid = none)
    (hfl : s.free_list = []) (hq : s.replacer.que = f :: q)
    (hd : (s.pages.getD f default).is_dirty = false) :
    s.FetchPgImp pid = finishFetch
      { s with replacer := { s.replacer with que := q, que_page := setMap s.replacer.que_page f false },
               pages := s.pages.set f ({ s.pages.getD f default with pin_count := 0, data := 0 }) }
      pid f ({ s.pages.getD f default with pin_count := 0, data := 0 }) [] := by
  have hv : s.replacer.Victim
      = (some f, { s.replacer with que := q, que_page := setMap s.replacer.que_page f false }) := by
    unfold LRUReplacer.Victim
    rw [hq]
  unfold BPM.FetchPgImp
  rw [if_neg hinv, hres, hfl, if_neg (by simp [LRUReplacer.Size, hq]), hv]
  dsimp only
  rw [if_neg (by simpa using hd)]

/-- C5: NewPage returns null with the out-parameter set to INVALID exactly
when the free list and the replacer are both empty (every frame pinned),
and then the whole pool state is unchanged (so previously pinned pages
remain resident); FetchPage on a non-resident id under the same exhaustion
condition likewise returns null with the state unchanged. -/
theorem C5_pool_exhaustion (s : BPM) (pid : PageId) :
    (s.NewPgImp.res = (INVALID_PAGE_ID, none) ↔ (s.free_list = [] ∧ s.replacer.que = []))
    ∧ (s.free_list = [] → s.replacer.que = [] → s.NewPgImp = ⟨(INVALID_PAGE_ID, none), s, []⟩)
    ∧ (s.page_table pid = none → s.free_list = [] → s.replacer.que = [] →
        s.FetchPgImp pid = ⟨none, s, []⟩) := by
  refine ⟨⟨?_, ?_⟩, ?_, ?_⟩
  · intro h
    cases hfl : s.free_list with
    | cons f rest =>
      rw [newPg_free s f rest hfl, (finishNew_spec _ _ _ _).1] at h
      simp at h
    | nil =>
      cases hq : s.replacer.que with
      | nil => exact ⟨hfl ▸ rfl, hq ▸ rfl⟩
      | cons f q =>
        by_cases hd : (s.pages.getD f default).is_dirty = true
        · rw [newPg_victim_dirty s f q hfl hq hd, (finishNew_spec _ _ _ _).1] at h
          simp at h
        · rw [newPg_victim_clean s f q hfl hq (by simpa using hd),
              (finishNew_spec _ _ _ _).1] at h
          simp at h
  · intro h
    rw [newPg_exhausted s h.1 h.2]
  · intro hfl hq
    rw [newPg_exhausted s hfl hq]
  · intro hres hfl hq
    exact fetch_miss_exhausted s pid hres hfl hq

/-- A pool-size-1 instance with its only frame pinned: the pool is
exhausted, page 0 remains resident and pinned. -/
def ex5 : BPM := runOps (initBPM 1 1 0) [Op.newPage]

theorem C5_pool_exhaustion_witness :
    (ex5.free_list = [] ∧ ex5.replacer.que = [] ∧ ex5.page_table 7 = none
     ∧ ex5.page_table 0 = some 0)
    ∧ ex5.NewPgImp = ⟨(INVALID_PAGE_ID, none), ex5, []⟩
    ∧ ex5.FetchPgImp 7 = ⟨none, ex5, []⟩ :=
  ⟨⟨by decide, by decide, by decide, by decide⟩,
   (C5_pool_exhaustion ex5 7).2.1 (by decide) (by decide),
   (C5_pool_exhaustion ex5 7).2.2 (by decide) (by decide) (by decide)⟩

/-- C6: when NewPage, or FetchPage on a non-resident id, must select a
frame, it pops the front of a non-empty free list and otherwise takes the
replacer's victim; a free-list frame causes no writeback, a dirty victim
is written back (`WritePage(old_id, frame.data)` precedes the frame's
reuse — in particular it precedes the `ReadPage` of the fetched page in
the trace), the dirty flag is cleared, and the victim's old id is erased
from the page table before the new mapping is installed (final table
`tableInsert (tableErase old_table old_id) new_id frame`). -/
theorem C6_frame_selection (s : BPM) (pid : PageId) :
    (∀ f rest, s.free_list = f :: rest →
       s.NewPgImp.res = (Int.ofNat s.next_page_id, some f)
       ∧ s.NewPgImp.st.free_list = rest
       ∧ s.NewPgImp.trace = [])
    ∧ (∀ f q, s.free_list = [] → s.replacer.que = f :: q →
        (s.pages.getD f default).is_dirty = true → f < s.pages.length →
        s.NewPgImp.res = (Int.ofNat s.next_page_id, some f)
        ∧ s.NewPgImp.trace
            = [DiskOp.write (s.pages.getD f default).page_id (s.pages.getD f default).data]
        ∧ (s.NewPgImp.st.pages.getD f default).is_dirty = false
        ∧ s.NewPgImp.st.page_table
            = tableInsert (tableErase s.page_table (s.pages.getD f default).page_id)
                (Int.ofNat s.next_page_id) f)
    ∧ (∀ f q, s.free_list = [] → s.replacer.que = f :: q →
        (s.pages.getD f default).is_dirty = false →
        s.NewPgImp.res = (Int.ofNat s.next_page_id, some f)
        ∧ s.NewPgImp.trace = []
        ∧ s.NewPgImp.st.page_table
            = tableInsert (tableErase s.page_table (s.pages.getD f default).page_id)
                (Int.ofNat s.next_page_id) f)
    ∧ (∀ f rest, pid ≠ INVALID_PAGE_ID → s.page_table pid = none →
        s.free_list = f :: rest →
        (s.FetchPgImp pid).res = some f
        ∧ (s.FetchPgImp pid).st.free_list = rest
        ∧ (s.FetchPgImp pid).trace = [DiskOp.read pid])
    ∧ (∀ f q, pid ≠ INVALID_PAGE_ID → s.page_table pid = none → s.free_list = [] →
        s.replacer.que = f :: q → (s.pages.getD f default).is_dirty = true →
        f < s.pages.length →
        (s.FetchPgImp pid).res = some f
        ∧ (s.FetchPgImp pid).trace
            = [DiskOp.write (s.pages.getD f default).page_id (s.pages.getD f default).data,
               DiskOp.read pid]
        ∧ ((s.FetchPgImp pid).st.pages.getD f default).is_dirty = false
        ∧ (s.FetchPgImp pid).st.page_table
            = tableInsert (tableErase s.page_table (s.pages.getD f default).page_id) pid f)
    ∧ (∀ f q, pid ≠ INVALID_PAGE_ID → s.page_table pid = none → s.free_list = [] →
        s.replacer.que = f :: q → (s.pages.getD f default).is_dirty = false →
        (s.FetchPgImp pid).res = some f
        ∧ (s.FetchPgImp pid).trace = [DiskOp.read pid]
        ∧ (s.FetchPgImp pid).st.page_table
            = tableInsert (tableErase s.page_table (s.pages.getD f default).page_id) pid f) := by
  refine ⟨?_, ?_, ?_, ?_, ?_, ?_⟩
  · intro f rest hfl
    rw [newPg_free s f rest hfl]
    exact ⟨rfl, rfl, rfl⟩
  · intro f q hfl hq hd hf
    rw [newPg_victim_dirty s f q hfl hq hd]
    refine ⟨rfl, rfl, ?_, rfl⟩
    have hset := (finishNew_spec
      { s with replacer := { s.replacer with que := q, que_page := setMap s.replacer.que_page f false },
               disk := diskWrite s.disk (s.pages.getD f default).page_id (s.pages.getD f default).data,
               pages := s.pages.set f ({ s.pages.getD f default with is_dirty := false, pin_count := 0 }) }
      f ({ s.pages.getD f default with is_dirty := false, pin_count := 0 })
      [DiskOp.write (s.pages.getD f default).page_id (s.pages.getD f default).data]).2.2.2.2.2.2.2.1
    rw [hset]
    show (((s.pages.set f _).set f _).getD f default).is_dirty = false
    rw [List.set_set, getD_set_self _ _ _ (by simpa using hf)]
  · intro f q hfl hq hd
    rw [newPg_victim_clean s f q hfl hq hd]
    exact ⟨rfl, rfl, rfl⟩
  · intro f rest hinv hres hfl
    rw [fetch_miss_free s pid f rest hinv hres hfl]
    exact ⟨rfl, rfl, rfl⟩
  · intro f q hinv hres hfl hq hd hf
    rw [fetch_miss_victim_dirty s pid f q hinv hres hfl hq hd]
    refine ⟨rfl, rfl, ?_, rfl⟩
    have hset := (finishFetch_spec
      { s with replacer := { s.replacer with que := q, que_page := setMap s.replacer.que_page f false },
               disk := diskWrite s.disk (s.pages.getD f default).page_id (s.pages.getD f default).data,
               pages := s.pages.set f ({ s.pages.getD f default with is_dirty := false, pin_count := 0, data := 0 }) }
      pid f ({ s.pages.getD f default with is_dirty := false, pin_count := 0, data := 0 })
      [DiskOp.write (s.pages.getD f default).page_id (s.pages.getD f default).data]).2.2.2.2.2.2.2.1
    rw [hset]
    show (((s.pages.set f _).set f _).getD f default).is_dirty = false
    rw [List.set_set, getD_set_self _ _ _ (by simpa using hf)]
  · intro f q hinv hres hfl hq hd
    rw [fetch_miss_victim_clean s pid f q hinv hres hfl hq hd]
    exact ⟨rfl, rfl, rfl⟩

/-- A pool-size-1 instance whose only frame holds dirty, unpinned page 0:
the next frame selection must evict it. -/
def v6 : BPM := runOps (initBPM 1 1 0) [Op.newPage, Op.unpinPage 0 true]

theorem C6_frame_selection_witness :
    ((initBPM 1 1 0).free_list = 0 :: []
     ∧ ((initBPM 1 1 0).NewPgImp.res = (Int.ofNat (initBPM 1 1 0).next_page_id, some 0)
        ∧ (initBPM 1 1 0).NewPgImp.st.free_list = []
        ∧ (initBPM 1 1 0).NewPgImp.trace = []))
    ∧ ((5 : PageId) ≠ INVALID_PAGE_ID ∧ v6.page_table 5 = none ∧ v6.free_list = []
       ∧ v6.replacer.que = 0 :: [] ∧ (v6.pages.getD 0 default).is_dirty = true
       ∧ 0 < v6.pages.length)
    ∧ ((v6.FetchPgImp 5).res = some 0
       ∧ (v6.FetchPgImp 5).trace
           = [DiskOp.write (v6.pages.getD 0 default).page_id (v6.pages.getD 0 default).data,
              DiskOp.read 5]
       ∧ ((v6.FetchPgImp 5).st.pages.getD 0 default).is_dirty = false
       ∧ (v6.FetchPgImp 5).st.page_table
           = tableInsert (tableErase v6.page_table (v6.pages.getD 0 default).page_id) 5 0) :=
  ⟨⟨by decide, (C6_frame_selection (initBPM 1 1 0) 5).1 0 [] (by decide)⟩,
   ⟨by decide, by decide, by decide, by decide, by decide, by decide⟩,
   (C6_frame_selection v6 5).2.2.2.2.1 0 [] (by decide) (by decide) (by decide)
     (by decide) (by decide) (by decide)⟩

/-- FlushPgImp never touches the allocator fields. -/
theorem flush_preserves_alloc (s : BPM) (pid : PageId) :
    (s.FlushPgImp pid).st.next_page_id = s.next_page_id
    ∧ (s.FlushPgImp pid).st.num_instances = s.num_instances
    ∧ (s.FlushPgImp pid).st.instance_index = s.instance_index := by
  unfold BPM.FlushPgImp
  repeat' first | exact ⟨rfl, rfl, rfl⟩ | split

/-- UnpinPgImp never touches the allocator fields. -/
theorem unpin_preserves_alloc (s : BPM) (pid : PageId) (d : Bool) :
    (s.UnpinPgImp pid d).2.next_page_id = s.next_page_id
    ∧ (s.UnpinPgImp pid d).2.num_instances = s.num_instances
    ∧ (s.UnpinPgImp pid d).2.instance_index = s.instance_index := by
  unfold BPM.UnpinPgImp
  repeat' first | exact ⟨rfl, rfl, rfl⟩ | split | dsimp only

/-- DeletePgImp never touches the allocator fields. -/
theorem delete_preserves_alloc (s : BPM) (pid : PageId) :
    (s.DeletePgImp pid).st.next_page_id = s.next_page_id
    ∧ (s.DeletePgImp pid).st.num_instances = s.num_instances
    ∧ (s.DeletePgImp pid).st.instance_index = s.instance_index := by
  unfold BPM.DeletePgImp
  repeat' first | exact ⟨rfl, rfl, rfl⟩ | split | dsimp only

/-- FetchPgImp never calls AllocatePage: the allocator fields are untouched. -/
theorem fetch_preserves_alloc (s : BPM) (pid : PageId) :
    (s.FetchPgImp pid).st.next_page_id = s.next_page_id
    ∧ (s.FetchPgImp pid).st.num_instances = s.num_instances
    ∧ (s.FetchPgImp pid).st.instance_index = s.instance_index := by
  unfold BPM.FetchPgImp finishFetch
  repeat' first | exact ⟨rfl, rfl, rfl⟩ | split | dsimp only

/-- NewPgImp either fails (cursor unchanged) or allocates once (cursor
advanced by `num_instances`). -/
theorem newPg_preserves_alloc (s : BPM) :
    (s.NewPgImp.st.next_page_id = s.next_page_id
      ∨ s.NewPgImp.st.next_page_id = s.next_page_id + s.num_instances)
    ∧ s.NewPgImp.st.num_instances = s.num_instances
    ∧ s.NewPgImp.st.instance_index = s.instance_index := by
  unfold BPM.NewPgImp finishNew
  repeat' first | exact ⟨Or.inl rfl, rfl, rfl⟩ | exact ⟨Or.inr rfl, rfl, rfl⟩ | split | dsimp only

/-- Any single call preserves the shard parameters and moves the cursor by
zero or one allocation step. -/
theorem applyOp_preserves_alloc (s : BPM) (op : Op) :
    ((s.applyOp op).next_page_id = s.next_page_id
      ∨ (s.applyOp op).next_page_id = s.next_page_id + s.num_instances)
    ∧ (s.applyOp op).num_instances = s.num_instances
    ∧ (s.applyOp op).instance_index = s.instance_index := by
  cases op with
  | newPage => exact newPg_preserves_alloc s
  | fetchPage pid =>
    exact ⟨Or.inl (fetch_preserves_alloc s pid).1, (fetch_preserves_alloc s pid).2⟩
  | unpinPage pid d =>
    exact ⟨Or.inl (unpin_preserves_alloc s pid d).1, (unpin_preserves_alloc s pid d).2⟩
  | flushPage pid =>
    exact ⟨Or.inl (flush_preserves_alloc s pid).1, (flush_preserves_alloc s pid).2⟩
  | deletePage pid =>
    exact ⟨Or.inl (delete_preserves_alloc s pid).1, (delete_preserves_alloc s pid).2⟩

/-- In every reachable state the shard parameters are the construction
parameters and the cursor is congruent to the instance index. -/
theorem reachable_alloc_inv (ps ni ii : Nat) (hlt : ii < ni) (s : BPM)
    (hr : Reachable ps ni ii s) :
    s.num_instances = ni ∧ s.instance_index = ii ∧ s.next_page_id % ni = ii := by
  induction hr with
  | init => exact ⟨rfl, rfl, Nat.mod_eq_of_lt hlt⟩
  | step s' op hr ih =>
    have h := applyOp_preserves_alloc s' op
    refine ⟨h.2.1.trans ih.1, h.2.2.trans ih.2.1, ?_⟩
    rcases h.1 with he | he
    · rw [he]; exact ih.2.2
    · rw [he, ih.1, Nat.add_mod_right]; exact ih.2.2

/-- A successful NewPage returns exactly the cursor value and advances the
cursor by one `num_instances` step. -/
theorem newPg_success_alloc (s : BPM) (pid : PageId) (f : FrameId)
    (h : s.NewPgImp.res = (pid, some f)) :
    pid = Int.ofNat s.next_page_id
    ∧ s.NewPgImp.st.next_page_id = s.next_page_id + s.num_instances := by
  cases hfl : s.free_list with
  | cons g rest =>
    rw [newPg_free s g rest hfl] at h ⊢
    rw [(finishNew_spec _ _ _ _).1, Prod.mk.injEq] at h
    exact ⟨h.1.symm, (finishNew_spec _ _ _ _).2.2.2.1⟩
  | nil =>
    cases hq : s.replacer.que with
    | nil =>
      rw [newPg_exhausted s hfl hq] at h
      simp [INVALID_PAGE_ID] at h
    | cons g q =>
      by_cases hd : (s.pages.getD g default).is_dirty = true
      · rw [newPg_victim_dirty s g q hfl hq hd] at h ⊢
        rw [(finishNew_spec _ _ _ _).1, Prod.mk.injEq] at h
        exact ⟨h.1.symm, (finishNew_spec _ _ _ _).2.2.2.1⟩
      · rw [newPg_victim_clean s g q hfl hq (by simpa using hd)] at h ⊢
        rw [(finishNew_spec _ _ _ _).1, Prod.mk.injEq] at h
        exact ⟨h.1.symm, (finishNew_spec _ _ _ _).2.2.2.1⟩

/-- C4: for an instance constructed with `num_instances = ni` and
`instance_index = ii`, in every reachable state the allocator cursor is
congruent to `ii` mod `ni`; a successful NewPage returns exactly the
cursor (so its id satisfies `id mod ni = ii`) and advances the cursor by
`ni`, while Fetch, Unpin, Flush and Delete never move the cursor — hence
successive successful NewPage calls return `ii, ii + ni, ii + 2·ni, …`. -/
theorem C4_page_id_allocation (ps ni ii : Nat) (hlt : ii < ni) (s : BPM)
    (hr : Reachable ps ni ii s) :
    s.next_page_id % ni = ii
    ∧ (∀ pid f, s.NewPgImp.res = (pid, some f) →
        pid = Int.ofNat s.next_page_id
        ∧ pid % (ni : Int) = (ii : Int)
        ∧ s.NewPgImp.st.next_page_id = s.next_page_id + ni)
    ∧ (∀ pid, (s.FetchPgImp pid).st.next_page_id = s.next_page_id)
    ∧ (∀ pid d, (s.UnpinPgImp pid d).2.next_page_id = s.next_page_id)
    ∧ (∀ pid, (s.FlushPgImp pid).st.next_page_id = s.next_page_id)
    ∧ (∀ pid, (s.DeletePgImp pid).st.next_page_id = s.next_page_id) := by
  obtain ⟨hni, hii, hmod⟩ := reachable_alloc_inv ps ni ii hlt s hr
  refine ⟨hmod, ?_, fun pid => (fetch_preserves_alloc s pid).1,
    fun pid d => (unpin_preserves_alloc s pid d).1,
    fun pid => (flush_preserves_alloc s pid).1,
    fun pid => (delete_preserves_alloc s pid).1⟩
  intro pid f h
  obtain ⟨h1, h2⟩ := newPg_success_alloc s pid f h
  refine ⟨h1, ?_, by rw [h2, hni]⟩
  subst h1
  exact_mod_cast congrArg Int.ofNat hmod

theorem C4_page_id_allocation_witness :
    (0 : Nat) < 1
    ∧ (initBPM 1 1 0).next_page_id % 1 = 0
    ∧ (initBPM 1 1 0).NewPgImp.res = ((0 : PageId), some 0)
    ∧ ((0 : PageId) = Int.ofNat (initBPM 1 1 0).next_page_id
       ∧ (0 : PageId) % ((1 : Nat) : Int) = ((0 : Nat) : Int)
       ∧ (initBPM 1 1 0).NewPgImp.st.next_page_id = (initBPM 1 1 0).next_page_id + 1) :=
  ⟨by decide,
   (C4_page_id_allocation 1 1 0 (by decide) _ Reachable.init).1,
   by decide,
   (C4_page_id_allocation 1 1 0 (by decide) _ Reachable.init).2.1 0 0 (by decide)⟩

end BusTub
